import Mathlib

/-!
# Shallow embedding of the r-camera PTP/MTP core

This file embeds the PTP/MTP transaction engine of the repository
(`src/ptp_mtp/`) in Lean 4 and proves properties of the embedded code.

Conventions of the embedding:
* A wire byte is a `Nat` (values produced by the encoders are `< 256` by
  construction, via `% 256`).
* Rust's fallible cursor reads (`Cursor<T> : PtpRead`) become a reader
  monad `ByteReader α = List Nat → Except Error (α × List Nat)` that
  consumes bytes from the front of the list.  A read past the end of the
  buffer is an `io::Error` of kind `UnexpectedEof`, which the source's
  `From<io::Error> for Error` converts to `Error::Malformed` — the embedded
  `readByte` returns that error directly.
* Machine integers are `Nat` (or `Int` for the signed scalar payloads),
  with explicit `% 2^w` where the source performs an `as` cast or where
  release-mode wrapping arithmetic matters.
* Rust `String` values that travel through the PTP string codec are
  represented by their list of UTF-16 code units (`List Nat`).  The
  source's `val.len()` is the UTF-8 byte length of the string, which
  agrees with the code-unit count on ASCII data and on the empty string;
  the embedding uses the code-unit count.
-/

namespace RCamera

/-- The error enum of `src/ptp_mtp/error.rs`.  `Io` covers `Error::Io`
(io errors other than `UnexpectedEof`, which `From<io::Error>` maps to
`Malformed`). -/
inductive Error where
  | Response (code : Nat)
  | Malformed (detail : String)
  | USB (detail : String)
  | NotFound (detail : String)
  | Io (detail : String)
deriving DecidableEq, Repr

/-- The error produced by a read that runs past the end of the buffer:
`io::ErrorKind::UnexpectedEof` mapped through `From<io::Error> for Error`. -/
def eofError : Error := Error.Malformed "意外的消息结束"

/-- A fallible reader over a byte buffer, consuming from the front.
Mirrors a `std::io::Cursor` carrying the not-yet-consumed suffix. -/
def ByteReader (α : Type) : Type := List Nat → Except Error (α × List Nat)

def ByteReader.pure (a : α) : ByteReader α := fun input => Except.ok (a, input)

def ByteReader.bind (p : ByteReader α) (f : α → ByteReader β) : ByteReader β :=
  fun input =>
    match p input with
    | Except.error e => Except.error e
    | Except.ok (a, rest) => f a rest

instance : Monad ByteReader where
  pure := ByteReader.pure
  bind := ByteReader.bind

/-- A reader that fails with error `e` without consuming anything. -/
def ByteReader.fail (e : Error) : ByteReader α := fun _ => Except.error e

/-- Read one byte (`read_u8`); at end of buffer this is `UnexpectedEof`. -/
def readByte : ByteReader Nat := fun input =>
  match input with
  | [] => Except.error eofError
  | b :: rest => Except.ok (b, rest)

/-- Read a `k`-byte little-endian unsigned integer
(`read_u16/u32/u64::<LittleEndian>` for k = 2, 4, 8). -/
def readLE : Nat → ByteReader Nat
  | 0 => ByteReader.pure 0
  | k + 1 =>
    ByteReader.bind readByte fun b =>
    ByteReader.bind (readLE k) fun v =>
    ByteReader.pure (b + 256 * v)

/-- Little-endian serialization of `v` on `k` bytes
(`write_u16/u32/u64::<LittleEndian>`; the value is truncated mod `2^(8k)`
exactly as the fixed-width write is). -/
def leBytes : Nat → Nat → List Nat
  | 0, _ => []
  | k + 1, v => v % 256 :: leBytes k (v / 256)

/-- Two's-complement interpretation of a `bits`-wide unsigned value
(how `read_i8/i16/...` interpret the bytes they read). -/
def fromTwos (bits : Nat) (n : Nat) : Int :=
  if 2 * n < 2 ^ bits then (n : Int) else (n : Int) - 2 ^ bits

/-- Two's-complement representation of a signed value on `bits` bits
(how `write_i8/i16/...` serialize their argument). -/
def toTwos (bits : Nat) (v : Int) : Nat := (v % ((2 : Int) ^ bits)).toNat

/-- Read a signed `k`-byte little-endian integer (`read_i8/i16/...`). -/
def readLEi (k : Nat) : ByteReader Int :=
  ByteReader.bind (readLE k) fun n => ByteReader.pure (fromTwos (8 * k) n)

/-- `read_ptp_u128`: reads two little-endian `u64` words and returns the
pair `(lo, hi)` where `hi` is the first word read (the source's variable
names). -/
def readPtp128 : ByteReader (Nat × Nat) :=
  ByteReader.bind (readLE 8) fun hi =>
  ByteReader.bind (readLE 8) fun lo =>
  ByteReader.pure (lo, hi)

/-- `read_ptp_vec`: a little-endian `u32` element count followed by that
many elements. -/
def readN (n : Nat) (p : ByteReader α) : ByteReader (List α) :=
  match n with
  | 0 => ByteReader.pure []
  | k + 1 =>
    ByteReader.bind p fun x =>
    ByteReader.bind (readN k p) fun xs =>
    ByteReader.pure (x :: xs)

def readPtpVec (p : ByteReader α) : ByteReader (List α) :=
  ByteReader.bind (readLE 4) fun len => readN len p

/-- Validity of a UTF-16 code-unit sequence (what `String::from_utf16`
accepts): high surrogates must be followed by low surrogates, and low
surrogates may not appear alone. -/
def utf16Valid : List Nat → Bool
  | [] => true
  | u :: rest =>
    if u < 0xD800 ∨ 0xE000 ≤ u then utf16Valid rest
    else if u < 0xDC00 then
      match rest with
      | u2 :: rest2 => if 0xDC00 ≤ u2 ∧ u2 < 0xE000 then utf16Valid rest2 else false
      | [] => false
    else false

/-- `read_ptp_str` (`src/ptp_mtp/data_types.rs:107`): a `u8` length byte;
if nonzero, `len - 1` UTF-16 code units followed by one discarded
terminator unit, with a `Malformed` error on invalid UTF-16; a zero
length byte is the empty string with no further bytes. -/
def read_ptp_str : ByteReader (List Nat) :=
  ByteReader.bind readByte fun len =>
    if 0 < len then
      ByteReader.bind (readN (len - 1) (readLE 2)) fun data =>
      ByteReader.bind (readLE 2) fun _ =>
        if utf16Valid data then ByteReader.pure data
        else ByteReader.fail (Error.Malformed "无效的UTF16数据")
    else ByteReader.pure []

/-- The `PtpDataType` enum (`src/ptp_mtp/data_types.rs:138`).  128-bit
values are `(u64, u64)` pairs as in the source; strings are UTF-16
code-unit lists. -/
inductive PtpDataType where
  | UNDEF
  | INT8 (v : Int)
  | UINT8 (v : Nat)
  | INT16 (v : Int)
  | UINT16 (v : Nat)
  | INT32 (v : Int)
  | UINT32 (v : Nat)
  | INT64 (v : Int)
  | UINT64 (v : Nat)
  | INT128 (v : Nat × Nat)
  | UINT128 (v : Nat × Nat)
  | AINT8 (v : List Int)
  | AUINT8 (v : List Nat)
  | AINT16 (v : List Int)
  | AUINT16 (v : List Nat)
  | AINT32 (v : List Int)
  | AUINT32 (v : List Nat)
  | AINT64 (v : List Int)
  | AUINT64 (v : List Nat)
  | AINT128 (v : List (Nat × Nat))
  | AUINT128 (v : List (Nat × Nat))
  | STR (v : List Nat)
deriving DecidableEq, Repr

/-- Array encoding helper: `u32` length prefix then the encoded elements
(`val.len() as u32` truncates mod `2^32`). -/
def encodeArr (enc : α → List Nat) (l : List α) : List Nat :=
  leBytes 4 l.length ++ (l.map enc).flatten

/-- `PtpDataType::encode` (`src/ptp_mtp/data_types.rs:165`).  Nota bene:
* 128-bit values `(hi, lo)` are written low word first;
* the string length byte is `((val.len() as u8) * 2) + 1` — the `u8`
  arithmetic wraps mod 256 (release semantics), and the byte is written
  even for the empty string, for which no code units follow. -/
def PtpDataType.encode : PtpDataType → List Nat
  | .UNDEF => []
  | .INT8 v => leBytes 1 (toTwos 8 v)
  | .UINT8 v => leBytes 1 v
  | .INT16 v => leBytes 2 (toTwos 16 v)
  | .UINT16 v => leBytes 2 v
  | .INT32 v => leBytes 4 (toTwos 32 v)
  | .UINT32 v => leBytes 4 v
  | .INT64 v => leBytes 8 (toTwos 64 v)
  | .UINT64 v => leBytes 8 v
  | .INT128 (hi, lo) => leBytes 8 lo ++ leBytes 8 hi
  | .UINT128 (hi, lo) => leBytes 8 lo ++ leBytes 8 hi
  | .AINT8 l => encodeArr (fun v => leBytes 1 (toTwos 8 v)) l
  | .AUINT8 l => encodeArr (leBytes 1) l
  | .AINT16 l => encodeArr (fun v => leBytes 2 (toTwos 16 v)) l
  | .AUINT16 l => encodeArr (leBytes 2) l
  | .AINT32 l => encodeArr (fun v => leBytes 4 (toTwos 32 v)) l
  | .AUINT32 l => encodeArr (leBytes 4) l
  | .AINT64 l => encodeArr (fun v => leBytes 8 (toTwos 64 v)) l
  | .AUINT64 l => encodeArr (leBytes 8) l
  | .AINT128 l => encodeArr (fun p => leBytes 8 p.2 ++ leBytes 8 p.1) l
  | .AUINT128 l => encodeArr (fun p => leBytes 8 p.2 ++ leBytes 8 p.1) l
  | .STR s =>
    ((s.length % 256) * 2 + 1) % 256 ::
      (if 0 < s.length then (s.map (leBytes 2)).flatten ++ [0, 0] else [])

/-- `PtpDataType::read_type` (`src/ptp_mtp/data_types.rs:277`): the
dispatch table keyed by the 16-bit PTP type code; unknown codes yield
`UNDEF` without consuming anything. -/
def PtpDataType.read_type (kind : Nat) : ByteReader PtpDataType :=
  match kind with
  | 0x0001 => ByteReader.bind (readLEi 1) fun v => ByteReader.pure (.INT8 v)
  | 0x0002 => ByteReader.bind (readLE 1) fun v => ByteReader.pure (.UINT8 v)
  | 0x0003 => ByteReader.bind (readLEi 2) fun v => ByteReader.pure (.INT16 v)
  | 0x0004 => ByteReader.bind (readLE 2) fun v => ByteReader.pure (.UINT16 v)
  | 0x0005 => ByteReader.bind (readLEi 4) fun v => ByteReader.pure (.INT32 v)
  | 0x0006 => ByteReader.bind (readLE 4) fun v => ByteReader.pure (.UINT32 v)
  | 0x0007 => ByteReader.bind (readLEi 8) fun v => ByteReader.pure (.INT64 v)
  | 0x0008 => ByteReader.bind (readLE 8) fun v => ByteReader.pure (.UINT64 v)
  | 0x0009 => ByteReader.bind readPtp128 fun v => ByteReader.pure (.INT128 v)
  | 0x000A => ByteReader.bind readPtp128 fun v => ByteReader.pure (.UINT128 v)
  | 0x4001 => ByteReader.bind (readPtpVec (readLEi 1)) fun v => ByteReader.pure (.AINT8 v)
  | 0x4002 => ByteReader.bind (readPtpVec (readLE 1)) fun v => ByteReader.pure (.AUINT8 v)
  | 0x4003 => ByteReader.bind (readPtpVec (readLEi 2)) fun v => ByteReader.pure (.AINT16 v)
  | 0x4004 => ByteReader.bind (readPtpVec (readLE 2)) fun v => ByteReader.pure (.AUINT16 v)
  | 0x4005 => ByteReader.bind (readPtpVec (readLEi 4)) fun v => ByteReader.pure (.AINT32 v)
  | 0x4006 => ByteReader.bind (readPtpVec (readLE 4)) fun v => ByteReader.pure (.AUINT32 v)
  | 0x4007 => ByteReader.bind (readPtpVec (readLEi 8)) fun v => ByteReader.pure (.AINT64 v)
  | 0x4008 => ByteReader.bind (readPtpVec (readLE 8)) fun v => ByteReader.pure (.AUINT64 v)
  | 0x4009 => ByteReader.bind (readPtpVec readPtp128) fun v => ByteReader.pure (.AINT128 v)
  | 0x400A => ByteReader.bind (readPtpVec readPtp128) fun v => ByteReader.pure (.AUINT128 v)
  | 0xFFFF => ByteReader.bind read_ptp_str fun v => ByteReader.pure (.STR v)
  | _ => ByteReader.pure .UNDEF

/-! ## Container codec and transaction engine (`src/ptp_mtp/camera.rs`) -/

/-- `PtpContainerType` (`src/ptp_mtp/standard_codes.rs:6`). -/
inductive PtpContainerType where
  | Command
  | Data
  | Response
  | Event
deriving DecidableEq, Repr

/-- `PtpContainerType::from_u16`. -/
def PtpContainerType.from_u16 (v : Nat) : Option PtpContainerType :=
  match v with
  | 1 => some .Command
  | 2 => some .Data
  | 3 => some .Response
  | 4 => some .Event
  | _ => none

/-- The wire value of a container type (`#[repr(u16)]`). -/
def PtpContainerType.toU16 : PtpContainerType → Nat
  | .Command => 1
  | .Data => 2
  | .Response => 3
  | .Event => 4

/-- `StandardResponseCode::Ok`. -/
def StandardResponseCode.Ok : Nat := 0x2001

/-- `StandardResponseCode::GeneralError`. -/
def StandardResponseCode.GeneralError : Nat := 0x2002

def PTP_CONTAINER_INFO_SIZE : Nat := 12

/-- `usize` is 64 bits wide on the targets the source builds for; its
release-mode subtraction wraps modulo `2^64`. -/
def USIZE_MOD : Nat := 2 ^ 64

/-- `PtpContainerInfo` (`src/ptp_mtp/camera.rs:21`). -/
structure PtpContainerInfo where
  payload_len : Nat
  kind : PtpContainerType
  code : Nat
  tid : Nat
deriving DecidableEq, Repr

/-- `PtpContainerInfo::parse` (`src/ptp_mtp/camera.rs:40`): length(u32),
kind(u16, must map to a known variant), code(u16), tid(u32).  The source
computes `payload_len` as `len as usize - PTP_CONTAINER_INFO_SIZE` with
no lower bound on `len`; in release builds the `usize` subtraction wraps
modulo `2^64` (in debug builds it panics), which the embedding renders
as the explicit wrapped difference. -/
def PtpContainerInfo.parse : ByteReader PtpContainerInfo :=
  ByteReader.bind (readLE 4) fun len =>
  ByteReader.bind (readLE 2) fun kind_u16 =>
    match PtpContainerType.from_u16 kind_u16 with
    | none => ByteReader.fail (Error.Malformed "无效的消息类型")
    | some kind =>
      ByteReader.bind (readLE 2) fun code =>
      ByteReader.bind (readLE 4) fun tid =>
      ByteReader.pure
        { payload_len := (len + USIZE_MOD - PTP_CONTAINER_INFO_SIZE) % USIZE_MOD
          kind := kind
          code := code
          tid := tid }

/-- `PtpContainerInfo::belongs_to`. -/
def PtpContainerInfo.belongs_to (c : PtpContainerInfo) (tid : Nat) : Bool :=
  c.tid == tid

/-- `CHUNK_SIZE` in `write_txn_phase`: 1 MiB. -/
def CHUNK_SIZE : Nat := 1024 * 1024

/-- Rust's `slice::chunks(m + 1)`: consecutive slices of `m + 1`
elements, the last possibly shorter; an empty slice yields no chunks.
The chunk size is passed as `m + 1` because `chunks(0)` panics in Rust. -/
def chunksAux (m : Nat) : List α → List (List α)
  | [] => []
  | x :: xs => (x :: xs).take (m + 1) :: chunksAux m (xs.drop m)
termination_by l => l.length
decreasing_by simp only [List.length_drop, List.length_cons]; omega

/-- `slice::chunks(n)` for `n ≥ 1` (`write_txn_phase` uses `CHUNK_SIZE`). -/
def chunks (n : Nat) (l : List α) : List (List α) := chunksAux (n - 1) l

/-- The 12-byte container header written by `write_txn_phase`
(`src/ptp_mtp/camera.rs:216`): total length as a truncated `u32`, then
kind, code, tid. -/
def container_header (kind : PtpContainerType) (code tid payloadLen : Nat) : List Nat :=
  leBytes 4 ((payloadLen + PTP_CONTAINER_INFO_SIZE) % 2 ^ 32) ++
    leBytes 2 kind.toU16 ++ leBytes 2 code ++ leBytes 4 tid

/-- `PtpCamera::write_txn_phase` (`src/ptp_mtp/camera.rs:205`), as the
sequence of buffers handed to `bulk_out`: the first transfer is the
12-byte header plus the first `min(payload.len(), CHUNK_SIZE - 12)`
payload bytes; the remaining payload follows in chunks of `CHUNK_SIZE`. -/
def write_txn_phase (kind : PtpContainerType) (code tid : Nat) (payload : List Nat) :
    List (List Nat) :=
  let first_chunk_payload_bytes := min payload.length (CHUNK_SIZE - PTP_CONTAINER_INFO_SIZE)
  let buf := container_header kind code tid payload.length ++
    payload.take first_chunk_payload_bytes
  buf :: chunks CHUNK_SIZE (payload.drop first_chunk_payload_bytes)

/-- The stack buffer of `read_txn_phase` is 8 KiB; the source's
`unintialized_buf` (a name retained from the upstream implementation)
is that same buffer, so `buf.len() == unintialized_buf.len()` says the
first bulk read returned a full buffer. -/
def READ_BUF_SIZE : Nat := 8 * 1024

/-- Result of one `read_txn_phase` call, together with how many bulk-in
reads the call issued. -/
structure ReadPhaseResult where
  info : PtpContainerInfo
  payload : List Nat
  readsIssued : Nat
deriving DecidableEq, Repr

/-- `PtpCamera::read_txn_phase` (`src/ptp_mtp/camera.rs:241`) over an
abstract bulk-in transport, modelled as the list of byte buffers that
successive successful bulk reads return (each truncated to the capacity
the code offers: the 8 KiB stack buffer for the first read, the
remaining `Vec` capacity `payload_len + 1 - payload.len()` for the
second).  An exhausted list models a failed transfer. -/
def read_txn_phase (reads : List (List Nat)) : Except Error ReadPhaseResult :=
  match reads with
  | [] => Except.error (Error.USB "批量读取失败")
  | r :: rest =>
    let buf := r.take READ_BUF_SIZE
    match PtpContainerInfo.parse buf with
    | Except.error e => Except.error e
    | Except.ok (cinfo, _) =>
      if cinfo.payload_len = 0 then
        Except.ok ⟨cinfo, [], 1⟩
      else
        let payload := buf.drop PTP_CONTAINER_INFO_SIZE
        if payload.length < cinfo.payload_len ∨ buf.length = READ_BUF_SIZE then
          match rest with
          | [] => Except.error (Error.USB "批量读取失败")
          | r2 :: _ =>
            let n2 := min r2.length (cinfo.payload_len + 1 - payload.length)
            Except.ok ⟨cinfo, payload ++ r2.take n2, 2⟩
        else
          Except.ok ⟨cinfo, payload, 1⟩

/-- The receive loop of `PtpCamera::command`
(`src/ptp_mtp/camera.rs:183`), over the stream of already-framed
containers the successive `read_txn_phase` calls deliver.  `acc` is
`data_phase_payload`.  An exhausted stream models a failed transfer. -/
def command_recv (tid : Nat) (acc : List Nat) :
    List (PtpContainerInfo × List Nat) → Except Error (List Nat)
  | [] => Except.error (Error.USB "批量读取失败")
  | (cinfo, payload) :: rest =>
    if ¬ cinfo.belongs_to tid then
      Except.error (Error.Malformed "事务ID不匹配")
    else
      match cinfo.kind with
      | .Data => command_recv tid payload rest
      | .Response =>
        if cinfo.code ≠ StandardResponseCode.Ok then
          Except.error (Error.Response cinfo.code)
        else
          Except.ok acc
      | _ => command_recv tid acc rest

/-- `PtpCamera::command` (`src/ptp_mtp/camera.rs:152`), reduced to its
transaction-ID bookkeeping and receive loop: the transaction is assigned
`current_tid`, the counter increments, and the inbound containers are
folded by `command_recv` starting from an empty data-phase payload. -/
def command (current_tid : Nat) (reads : List (PtpContainerInfo × List Nat)) :
    Except Error (List Nat) × Nat :=
  (command_recv current_tid [] reads, current_tid + 1)

/-- The data-phase payload `command_recv` has accumulated after
processing a list of containers: the payload of the last `Data`
container, starting from `acc`. -/
def data_acc (acc : List Nat) : List (PtpContainerInfo × List Nat) → List Nat
  | [] => acc
  | (cinfo, payload) :: rest =>
    match cinfo.kind with
    | .Data => data_acc payload rest
    | _ => data_acc acc rest

/-! ## Structured reply decoders (`src/ptp_mtp/device_info.rs`) -/

/-- `PtpDeviceInfo` (`src/ptp_mtp/device_info.rs:10`); strings are UTF-16
code-unit lists. -/
structure PtpDeviceInfo where
  Version : Nat
  VendorExID : Nat
  VendorExVersion : Nat
  VendorExtensionDesc : List Nat
  FunctionalMode : Nat
  OperationsSupported : List Nat
  EventsSupported : List Nat
  DevicePropertiesSupported : List Nat
  CaptureFormats : List Nat
  ImageFormats : List Nat
  Manufacturer : List Nat
  Model : List Nat
  DeviceVersion : List Nat
  SerialNumber : List Nat
deriving DecidableEq, Repr

/-- The field sequence of `PtpDeviceInfo::decode`
(`src/ptp_mtp/device_info.rs:29`). -/
def deviceInfoFields : ByteReader PtpDeviceInfo :=
  ByteReader.bind (readLE 2) fun version =>
  ByteReader.bind (readLE 4) fun vendorExID =>
  ByteReader.bind (readLE 2) fun vendorExVersion =>
  ByteReader.bind read_ptp_str fun vendorExtensionDesc =>
  ByteReader.bind (readLE 2) fun functionalMode =>
  ByteReader.bind (readPtpVec (readLE 2)) fun operationsSupported =>
  ByteReader.bind (readPtpVec (readLE 2)) fun eventsSupported =>
  ByteReader.bind (readPtpVec (readLE 2)) fun devicePropertiesSupported =>
  ByteReader.bind (readPtpVec (readLE 2)) fun captureFormats =>
  ByteReader.bind (readPtpVec (readLE 2)) fun imageFormats =>
  ByteReader.bind read_ptp_str fun manufacturer =>
  ByteReader.bind read_ptp_str fun model =>
  ByteReader.bind read_ptp_str fun deviceVersion =>
  ByteReader.bind read_ptp_str fun serialNumber =>
  ByteReader.pure
    { Version := version, VendorExID := vendorExID, VendorExVersion := vendorExVersion
      VendorExtensionDesc := vendorExtensionDesc, FunctionalMode := functionalMode
      OperationsSupported := operationsSupported, EventsSupported := eventsSupported
      DevicePropertiesSupported := devicePropertiesSupported
      CaptureFormats := captureFormats, ImageFormats := imageFormats
      Manufacturer := manufacturer, Model := model
      DeviceVersion := deviceVersion, SerialNumber := serialNumber }

/-- `PtpDeviceInfo::decode(buf)`: runs the cursor over `buf` and returns
the record, without checking that the cursor reached the end of the
buffer (the source calls no `expect_end`). -/
def PtpDeviceInfo.decode (buf : List Nat) : Except Error PtpDeviceInfo :=
  match deviceInfoFields buf with
  | Except.error e => Except.error e
  | Except.ok (v, _) => Except.ok v

/-- `PtpObjectInfo` (`src/ptp_mtp/device_info.rs:54`). -/
structure PtpObjectInfo where
  StorageID : Nat
  ObjectFormat : Nat
  ProtectionStatus : Nat
  ObjectCompressedSize : Nat
  ThumbFormat : Nat
  ThumbCompressedSize : Nat
  ThumbPixWidth : Nat
  ThumbPixHeight : Nat
  ImagePixWidth : Nat
  ImagePixHeight : Nat
  ImageBitDepth : Nat
  ParentObject : Nat
  AssociationType : Nat
  AssociationDesc : Nat
  SequenceNumber : Nat
  Filename : List Nat
  CaptureDate : List Nat
  ModificationDate : List Nat
  Keywords : List Nat
deriving DecidableEq, Repr

/-- The field sequence of `PtpObjectInfo::decode`
(`src/ptp_mtp/device_info.rs:78`). -/
def objectInfoFields : ByteReader PtpObjectInfo :=
  ByteReader.bind (readLE 4) fun storageID =>
  ByteReader.bind (readLE 2) fun objectFormat =>
  ByteReader.bind (readLE 2) fun protectionStatus =>
  ByteReader.bind (readLE 4) fun objectCompressedSize =>
  ByteReader.bind (readLE 2) fun thumbFormat =>
  ByteReader.bind (readLE 4) fun thumbCompressedSize =>
  ByteReader.bind (readLE 4) fun thumbPixWidth =>
  ByteReader.bind (readLE 4) fun thumbPixHeight =>
  ByteReader.bind (readLE 4) fun imagePixWidth =>
  ByteReader.bind (readLE 4) fun imagePixHeight =>
  ByteReader.bind (readLE 4) fun imageBitDepth =>
  ByteReader.bind (readLE 4) fun parentObject =>
  ByteReader.bind (readLE 2) fun associationType =>
  ByteReader.bind (readLE 4) fun associationDesc =>
  ByteReader.bind (readLE 4) fun sequenceNumber =>
  ByteReader.bind read_ptp_str fun filename =>
  ByteReader.bind read_ptp_str fun captureDate =>
  ByteReader.bind read_ptp_str fun modificationDate =>
  ByteReader.bind read_ptp_str fun keywords =>
  ByteReader.pure
    { StorageID := storageID, ObjectFormat := objectFormat
      ProtectionStatus := protectionStatus, ObjectCompressedSize := objectCompressedSize
      ThumbFormat := thumbFormat, ThumbCompressedSize := thumbCompressedSize
      ThumbPixWidth := thumbPixWidth, ThumbPixHeight := thumbPixHeight
      ImagePixWidth := imagePixWidth, ImagePixHeight := imagePixHeight
      ImageBitDepth := imageBitDepth, ParentObject := parentObject
      AssociationType := associationType, AssociationDesc := associationDesc
      SequenceNumber := sequenceNumber, Filename := filename
      CaptureDate := captureDate, ModificationDate := modificationDate
      Keywords := keywords }

/-- `PtpObjectInfo::decode(buf)`: like `PtpDeviceInfo::decode`, no
end-of-buffer check. -/
def PtpObjectInfo.decode (buf : List Nat) : Except Error PtpObjectInfo :=
  match objectInfoFields buf with
  | Except.error e => Except.error e
  | Except.ok (v, _) => Except.ok v

/-- `PtpFormData` (`src/ptp_mtp/device_info.rs:138`). -/
inductive PtpFormData where
  | NoForm
  | Range (minValue maxValue step : PtpDataType)
  | Enumeration (array : List PtpDataType)
deriving DecidableEq, Repr

/-- The `Form` field match of `PtpPropInfo::decode`
(`src/ptp_mtp/device_info.rs:181`): a one-byte discriminant; `0x01`
reads a `Range` of three values of the property's own data type; `0x02`
reads a 16-bit little-endian element count followed by that many values
of the property's own data type; anything else is `None` with no further
bytes consumed. -/
def read_form (data_type : Nat) : ByteReader PtpFormData :=
  ByteReader.bind readByte fun d =>
    match d with
    | 1 =>
      ByteReader.bind (PtpDataType.read_type data_type) fun minValue =>
      ByteReader.bind (PtpDataType.read_type data_type) fun maxValue =>
      ByteReader.bind (PtpDataType.read_type data_type) fun step =>
      ByteReader.pure (.Range minValue maxValue step)
    | 2 =>
      ByteReader.bind (readLE 2) fun len =>
      ByteReader.bind (readN len (PtpDataType.read_type data_type)) fun arr =>
      ByteReader.pure (.Enumeration arr)
    | _ => ByteReader.pure .NoForm

/-- `PtpPropInfo` (`src/ptp_mtp/device_info.rs:153`). -/
structure PtpPropInfo where
  PropertyCode : Nat
  DataType : Nat
  GetSet : Nat
  IsEnable : Nat
  FactoryDefault : PtpDataType
  Current : PtpDataType
  Form : PtpFormData
deriving DecidableEq, Repr

/-- `PtpPropInfo::decode` (`src/ptp_mtp/device_info.rs:165`): the
FactoryDefault, Current and Form fields are decoded with the `DataType`
code read earlier in the same record. -/
def PtpPropInfo.decode : ByteReader PtpPropInfo :=
  ByteReader.bind (readLE 2) fun propertyCode =>
  ByteReader.bind (readLE 2) fun data_type =>
  ByteReader.bind readByte fun getSet =>
  ByteReader.bind readByte fun isEnable =>
  ByteReader.bind (PtpDataType.read_type data_type) fun factoryDefault =>
  ByteReader.bind (PtpDataType.read_type data_type) fun current =>
  ByteReader.bind (read_form data_type) fun form =>
  ByteReader.pure
    { PropertyCode := propertyCode, DataType := data_type
      GetSet := getSet, IsEnable := isEnable
      FactoryDefault := factoryDefault, Current := current, Form := form }

/-! ## Session/status state machine (`src/ptp_mtp/adapter.rs`) -/

/-- `CameraStatus` (`src/ptp_mtp/adapter.rs:30`). -/
inductive CameraStatus where
  | Disconnected
  | Connected
  | SessionOpen
  | Error
deriving DecidableEq, Repr

/-- The adapter state the claims depend on: the status field and whether
`camera` is `Some`. -/
structure AdapterState where
  status : CameraStatus
  hasCamera : Bool
deriving DecidableEq, Repr

/-- `PtpCameraAdapter::disconnect` (`src/ptp_mtp/adapter.rs:182`): after
a best-effort session close it always clears the camera and sets the
status to `Disconnected`. -/
def adapter_disconnect (_s : AdapterState) : AdapterState :=
  { status := .Disconnected, hasCamera := false }

/-- `PtpCameraAdapter::connect_camera` (`src/ptp_mtp/adapter.rs:63`),
over the outcome of device discovery: `none` models
`wait_for_usb_device` returning no device before the timeout, and
`some r` a discovered device whose transport creation finished with
`r`.  The `None` arm returns `Err("未找到PTP/MTP相机设备".into())`, and
`From<&str> for Error` (`src/ptp_mtp/error.rs:54`) builds `Error::USB`. -/
def connect_camera (s : AdapterState) (discovery : Option (Except Error Unit)) :
    Except Error Unit × AdapterState :=
  let s := adapter_disconnect s
  match discovery with
  | some (Except.ok _) =>
    (Except.ok (), { status := .Connected, hasCamera := true })
  | some (Except.error e) =>
    (Except.error e, { s with status := .Error })
  | none =>
    (Except.error (Error.USB "未找到PTP/MTP相机设备"), { s with status := .Disconnected })

/-- `PtpCameraAdapter::close_session` (`src/ptp_mtp/adapter.rs:156`),
over the outcome `cmdResult` of the camera's `CloseSession` command:
outside `SessionOpen` it is rejected (the `&str` conversion again gives
`Error::USB`); in `SessionOpen` with a camera the status becomes
`Connected` on success and on failure alike, and the command's error is
passed to the caller. -/
def close_session (s : AdapterState) (cmdResult : Except Error Unit) :
    Except Error Unit × AdapterState :=
  if s.status ≠ .SessionOpen then
    (Except.error (Error.USB "没有活动的PTP会话"), s)
  else if ¬ s.hasCamera then
    (Except.error (Error.USB "相机未连接"), s)
  else
    match cmdResult with
    | Except.ok _ => (Except.ok (), { s with status := .Connected })
    | Except.error e => (Except.error e, { s with status := .Connected })

/-! ## Helper lemmas -/

/-- A reader is extension-stable when success on a buffer carries over,
value and position unchanged, to any extension of that buffer: the
reader never looks past the bytes it consumes. -/
def ReaderExt (p : ByteReader α) : Prop :=
  ∀ input extra v rest, p input = Except.ok (v, rest) →
    p (input ++ extra) = Except.ok (v, rest ++ extra)

theorem ext_pure (a : α) : ReaderExt (ByteReader.pure a) := by
  intro input extra v rest h
  simp only [ByteReader.pure, Except.ok.injEq, Prod.mk.injEq] at h
  obtain ⟨hv, hr⟩ := h
  subst hv; subst hr
  rfl

theorem ext_fail {α : Type} (e : Error) : ReaderExt (ByteReader.fail e : ByteReader α) := by
  intro input extra v rest h
  simp [ByteReader.fail] at h

/-- Inversion for a successful `bind`: the first reader succeeded on the
input and the continuation succeeded on its leftover. -/
theorem bind_ok {p : ByteReader α} {f : α → ByteReader β} {input : List Nat}
    {v : β} {rest : List Nat}
    (h : ByteReader.bind p f input = Except.ok (v, rest)) :
    ∃ a mid, p input = Except.ok (a, mid) ∧ f a mid = Except.ok (v, rest) := by
  unfold ByteReader.bind at h
  cases hp : p input with
  | error e => rw [hp] at h; simp at h
  | ok ar =>
    obtain ⟨a, mid⟩ := ar
    rw [hp] at h
    exact ⟨a, mid, rfl, h⟩

theorem ext_bind {p : ByteReader α} {f : α → ByteReader β}
    (hp : ReaderExt p) (hf : ∀ a, ReaderExt (f a)) :
    ReaderExt (ByteReader.bind p f) := by
  intro input extra v rest h
  unfold ByteReader.bind at h ⊢
  cases hpi : p input with
  | error e => rw [hpi] at h; simp at h
  | ok ar =>
    obtain ⟨a, r⟩ := ar
    rw [hpi] at h
    rw [hp input extra a r hpi]
    exact hf a r extra v rest h

theorem ext_ite (c : Prop) [Decidable c] {p q : ByteReader α}
    (hp : ReaderExt p) (hq : ReaderExt q) : ReaderExt (if c then p else q) := by
  by_cases h : c
  · simpa [h] using hp
  · simpa [h] using hq

theorem ext_readByte : ReaderExt readByte := by
  intro input extra v rest h
  cases input with
  | nil => simp [readByte] at h
  | cons b bs =>
    simp only [readByte, Except.ok.injEq, Prod.mk.injEq] at h
    obtain ⟨hv, hr⟩ := h
    subst hv; subst hr
    rfl

theorem ext_readLE (k : Nat) : ReaderExt (readLE k) := by
  induction k with
  | zero => exact ext_pure 0
  | succ k ih => exact ext_bind ext_readByte fun b => ext_bind ih fun v => ext_pure _

theorem ext_readLEi (k : Nat) : ReaderExt (readLEi k) :=
  ext_bind (ext_readLE k) fun _ => ext_pure _

theorem ext_readPtp128 : ReaderExt readPtp128 :=
  ext_bind (ext_readLE 8) fun _ => ext_bind (ext_readLE 8) fun _ => ext_pure _

theorem ext_readN (n : Nat) {p : ByteReader α} (hp : ReaderExt p) :
    ReaderExt (readN n p) := by
  induction n with
  | zero => exact ext_pure []
  | succ k ih => exact ext_bind hp fun x => ext_bind ih fun xs => ext_pure _

theorem ext_readPtpVec {p : ByteReader α} (hp : ReaderExt p) :
    ReaderExt (readPtpVec p) :=
  ext_bind (ext_readLE 4) fun len => ext_readN len hp

theorem ext_read_ptp_str : ReaderExt read_ptp_str := by
  unfold read_ptp_str
  refine ext_bind ext_readByte fun len => ?_
  refine ext_ite _ ?_ (ext_pure [])
  refine ext_bind (ext_readN _ (ext_readLE 2)) fun data => ?_
  refine ext_bind (ext_readLE 2) fun _ => ?_
  exact ext_ite _ (ext_pure data) (ext_fail _)

theorem ext_read_type (kind : Nat) : ReaderExt (PtpDataType.read_type kind) := by
  unfold PtpDataType.read_type
  split
  · exact ext_bind (ext_readLEi _) fun _ => ext_pure _
  · exact ext_bind (ext_readLE _) fun _ => ext_pure _
  · exact ext_bind (ext_readLEi _) fun _ => ext_pure _
  · exact ext_bind (ext_readLE _) fun _ => ext_pure _
  · exact ext_bind (ext_readLEi _) fun _ => ext_pure _
  · exact ext_bind (ext_readLE _) fun _ => ext_pure _
  · exact ext_bind (ext_readLEi _) fun _ => ext_pure _
  · exact ext_bind (ext_readLE _) fun _ => ext_pure _
  · exact ext_bind ext_readPtp128 fun _ => ext_pure _
  · exact ext_bind ext_readPtp128 fun _ => ext_pure _
  · exact ext_bind (ext_readPtpVec (ext_readLEi _)) fun _ => ext_pure _
  · exact ext_bind (ext_readPtpVec (ext_readLE _)) fun _ => ext_pure _
  · exact ext_bind (ext_readPtpVec (ext_readLEi _)) fun _ => ext_pure _
  · exact ext_bind (ext_readPtpVec (ext_readLE _)) fun _ => ext_pure _
  · exact ext_bind (ext_readPtpVec (ext_readLEi _)) fun _ => ext_pure _
  · exact ext_bind (ext_readPtpVec (ext_readLE _)) fun _ => ext_pure _
  · exact ext_bind (ext_readPtpVec (ext_readLEi _)) fun _ => ext_pure _
  · exact ext_bind (ext_readPtpVec (ext_readLE _)) fun _ => ext_pure _
  · exact ext_bind (ext_readPtpVec ext_readPtp128) fun _ => ext_pure _
  · exact ext_bind (ext_readPtpVec ext_readPtp128) fun _ => ext_pure _
  · exact ext_bind ext_read_ptp_str fun _ => ext_pure _
  · exact ext_pure _

theorem ext_deviceInfoFields : ReaderExt deviceInfoFields := by
  unfold deviceInfoFields
  refine ext_bind (ext_readLE 2) fun _ => ?_
  refine ext_bind (ext_readLE 4) fun _ => ?_
  refine ext_bind (ext_readLE 2) fun _ => ?_
  refine ext_bind ext_read_ptp_str fun _ => ?_
  refine ext_bind (ext_readLE 2) fun _ => ?_
  refine ext_bind (ext_readPtpVec (ext_readLE 2)) fun _ => ?_
  refine ext_bind (ext_readPtpVec (ext_readLE 2)) fun _ => ?_
  refine ext_bind (ext_readPtpVec (ext_readLE 2)) fun _ => ?_
  refine ext_bind (ext_readPtpVec (ext_readLE 2)) fun _ => ?_
  refine ext_bind (ext_readPtpVec (ext_readLE 2)) fun _ => ?_
  refine ext_bind ext_read_ptp_str fun _ => ?_
  refine ext_bind ext_read_ptp_str fun _ => ?_
  refine ext_bind ext_read_ptp_str fun _ => ?_
  refine ext_bind ext_read_ptp_str fun _ => ?_
  exact ext_pure _

theorem ext_objectInfoFields : ReaderExt objectInfoFields := by
  unfold objectInfoFields
  refine ext_bind (ext_readLE 4) fun _ => ?_
  refine ext_bind (ext_readLE 2) fun _ => ?_
  refine ext_bind (ext_readLE 2) fun _ => ?_
  refine ext_bind (ext_readLE 4) fun _ => ?_
  refine ext_bind (ext_readLE 2) fun _ => ?_
  refine ext_bind (ext_readLE 4) fun _ => ?_
  refine ext_bind (ext_readLE 4) fun _ => ?_
  refine ext_bind (ext_readLE 4) fun _ => ?_
  refine ext_bind (ext_readLE 4) fun _ => ?_
  refine ext_bind (ext_readLE 4) fun _ => ?_
  refine ext_bind (ext_readLE 4) fun _ => ?_
  refine ext_bind (ext_readLE 4) fun _ => ?_
  refine ext_bind (ext_readLE 2) fun _ => ?_
  refine ext_bind (ext_readLE 4) fun _ => ?_
  refine ext_bind (ext_readLE 4) fun _ => ?_
  refine ext_bind ext_read_ptp_str fun _ => ?_
  refine ext_bind ext_read_ptp_str fun _ => ?_
  refine ext_bind ext_read_ptp_str fun _ => ?_
  refine ext_bind ext_read_ptp_str fun _ => ?_
  exact ext_pure _

/-- `readN` returns exactly as many elements as it was asked for. -/
theorem readN_length {p : ByteReader α} :
    ∀ (n : Nat) (input : List Nat) (l : List α) (rest : List Nat),
      readN n p input = Except.ok (l, rest) → l.length = n := by
  intro n
  induction n with
  | zero =>
    intro input l rest h
    simp only [readN, ByteReader.pure, Except.ok.injEq, Prod.mk.injEq] at h
    rw [← h.1]
    rfl
  | succ k ih =>
    intro input l rest h
    unfold readN at h
    obtain ⟨a, r, _, h2⟩ := bind_ok h
    obtain ⟨xs, r2, hN, h3⟩ := bind_ok h2
    simp only [ByteReader.pure, Except.ok.injEq, Prod.mk.injEq] at h3
    rw [← h3.1]
    simp [ih r xs r2 hN]

/-- Flattening the chunks of a list gives the list back. -/
theorem chunksAux_flatten (m : Nat) (l : List α) : (chunksAux m l).flatten = l := by
  generalize hn : l.length = n
  induction n using Nat.strong_induction_on generalizing l with
  | _ n ih =>
    cases l with
    | nil => simp [chunksAux]
    | cons x xs =>
      rw [chunksAux]
      have hlt : (xs.drop m).length < n := by
        subst hn
        simp only [List.length_drop, List.length_cons]
        omega
      rw [List.flatten_cons, ih (xs.drop m).length hlt (xs.drop m) rfl,
        List.take_succ_cons, List.cons_append, List.take_append_drop]

/-- Every chunk has at most the chunk size. -/
theorem chunksAux_mem_length (m : Nat) (l : List α) :
    ∀ c ∈ chunksAux m l, c.length ≤ m + 1 := by
  generalize hn : l.length = n
  induction n using Nat.strong_induction_on generalizing l with
  | _ n ih =>
    cases l with
    | nil => simp [chunksAux]
    | cons x xs =>
      rw [chunksAux]
      intro c hc
      rcases List.mem_cons.mp hc with h | h
      · subst h
        exact List.length_take_le _ _
      · have hlt : (xs.drop m).length < n := by
          subst hn
          simp only [List.length_drop, List.length_cons]
          omega
        exact ih (xs.drop m).length hlt (xs.drop m) rfl c h

/-- A nonempty list no longer than the chunk size is a single chunk. -/
theorem chunksAux_short {l : List α} {m : Nat} (h0 : l ≠ []) (h : l.length ≤ m + 1) :
    chunksAux m l = [l] := by
  cases l with
  | nil => exact absurd rfl h0
  | cons x xs =>
    rw [chunksAux]
    have hxs : xs.length ≤ m := by
      simp only [List.length_cons] at h
      omega
    rw [List.take_of_length_le h, List.drop_eq_nil_of_le hxs]
    simp [chunksAux]

/-- `leBytes` always produces exactly `k` bytes. -/
theorem leBytes_length (k v : Nat) : (leBytes k v).length = k := by
  induction k generalizing v with
  | zero => rfl
  | succ n ih => simp [leBytes, ih]

/-- The container header is always 12 bytes. -/
theorem container_header_length (kind : PtpContainerType) (code tid payloadLen : Nat) :
    (container_header kind code tid payloadLen).length = 12 := by
  simp [container_header, leBytes_length]

/-- Stepping `command_recv` over a prefix of in-transaction,
non-`Response` containers only updates the data-phase accumulator. -/
theorem command_recv_skip (tid : Nat) (pre tail : List (PtpContainerInfo × List Nat))
    (hpre : ∀ x ∈ pre, x.1.tid = tid ∧ x.1.kind ≠ PtpContainerType.Response) :
    ∀ acc, command_recv tid acc (pre ++ tail) = command_recv tid (data_acc acc pre) tail := by
  induction pre with
  | nil => intro acc; rfl
  | cons x xs ih =>
    intro acc
    obtain ⟨cinfo, payload⟩ := x
    obtain ⟨htid0, hkind0⟩ := hpre (cinfo, payload) (List.mem_cons_self _ _)
    have htid : cinfo.tid = tid := htid0
    have hkind : cinfo.kind ≠ PtpContainerType.Response := hkind0
    have hrest : ∀ x ∈ xs, x.1.tid = tid ∧ x.1.kind ≠ PtpContainerType.Response :=
      fun x hx => hpre x (List.mem_cons_of_mem _ hx)
    have hb : cinfo.belongs_to tid = true := by
      simp [PtpContainerInfo.belongs_to, htid]
    cases hk : cinfo.kind with
    | Command =>
      simp only [List.cons_append, command_recv, data_acc, hb, hk, not_true_eq_false,
        Bool.false_eq_true, if_false]
      exact ih hrest acc
    | Data =>
      simp only [List.cons_append, command_recv, data_acc, hb, hk, not_true_eq_false,
        Bool.false_eq_true, if_false]
      exact ih hrest payload
    | Response => exact absurd hk hkind
    | Event =>
      simp only [List.cons_append, command_recv, data_acc, hb, hk, not_true_eq_false,
        Bool.false_eq_true, if_false]
      exact ih hrest acc

/-! ## Claim theorems -/

/-- C1: the claim states that for every supported PTP type code,
decoding the encoding returns the original value, strings included.
The code violates this for every string: `encode` writes the length byte
`((val.len() as u8) * 2) + 1` — `1` for the empty string instead of the
`0` the decoder's empty-string convention requires, and `2n + 1` for an
`n`-character ASCII string where the decoder expects the character count
including the terminator, `n + 1`.  Decoding the encoding of the empty
string and of the one-character string `"A"` both run off the end of the
buffer and fail with `Malformed` instead of returning the value. -/
theorem read_type_encode_str_fails :
    PtpDataType.read_type 0xFFFF (PtpDataType.encode (PtpDataType.STR [])) =
      Except.error eofError ∧
    PtpDataType.read_type 0xFFFF (PtpDataType.encode (PtpDataType.STR [0x41])) =
      Except.error eofError := by
  exact ⟨rfl, rfl⟩

/-- C7: the claim states that `PtpContainerInfo::parse` fails with
`Malformed` when the 4-byte length field is below 12 and never panics on
such input.  The code has no such guard: it computes
`len as usize - PTP_CONTAINER_INFO_SIZE` unconditionally, which panics
in debug builds and wraps modulo `2^64` in release builds.  On the
12-byte header with length field 0 and kind `Command`, parse returns
`Ok` with the wrapped payload length `2^64 - 12` instead of a
`Malformed` error. -/
theorem parse_short_length_not_malformed :
    PtpContainerInfo.parse [0, 0, 0, 0, 1, 0, 0, 0, 0, 0, 0, 0] =
      Except.ok (⟨USIZE_MOD - 12, PtpContainerType.Command, 0, 0⟩, []) := by
  rfl

/-- C8 counterexample: the claim states that `connect_camera` fails with
a `NotFound` error when no matching device appears before the timeout.
On the no-device outcome the code returns
`Err("未找到PTP/MTP相机设备".into())`, and `From<&str> for Error`
produces `Error::USB`, not `Error::NotFound`; the state does end up
`Disconnected`. -/
theorem connect_camera_timeout_not_notfound :
    (connect_camera ⟨CameraStatus.Disconnected, false⟩ none).1 =
      Except.error (Error.USB "未找到PTP/MTP相机设备") ∧
    (match (connect_camera ⟨CameraStatus.Disconnected, false⟩ none).1 with
      | Except.error (Error.NotFound _) => true
      | _ => false) = false ∧
    (connect_camera ⟨CameraStatus.Disconnected, false⟩ none).2.status =
      CameraStatus.Disconnected := by
  exact ⟨rfl, rfl, rfl⟩

/-- C8 amended: when no matching device appears before the timeout,
`connect_camera` fails with a `USB` error (the `&str → Error` conversion
the source uses produces `Error::USB`, not `NotFound`) and leaves the
state machine in the `Disconnected` state with no camera, whatever the
starting state was. -/
theorem connect_camera_timeout_usb_disconnected (s : AdapterState) :
    connect_camera s none =
      (Except.error (Error.USB "未找到PTP/MTP相机设备"),
        ⟨CameraStatus.Disconnected, false⟩) := by
  rfl

/-- C9: `close_session`, called in the `SessionOpen` state (with the
camera handle that state implies), moves the status to `Connected`
whether the underlying CloseSession command succeeded or failed, and
passes the command's outcome — in particular its error — through to the
caller. -/
theorem close_session_downgrades (s : AdapterState) (r : Except Error Unit)
    (hst : s.status = CameraStatus.SessionOpen) (hcam : s.hasCamera = true) :
    (close_session s r).2.status = CameraStatus.Connected ∧
    (close_session s r).1 = r := by
  cases r with
  | ok a => cases a; simp [close_session, hst, hcam]
  | error e => simp [close_session, hst, hcam]

/-- Witness for C9 at a concrete failing CloseSession command. -/
theorem close_session_downgrades_witness :
    (close_session ⟨CameraStatus.SessionOpen, true⟩
        (Except.error (Error.Response StandardResponseCode.GeneralError))).2.status =
      CameraStatus.Connected ∧
    (close_session ⟨CameraStatus.SessionOpen, true⟩
        (Except.error (Error.Response StandardResponseCode.GeneralError))).1 =
      Except.error (Error.Response StandardResponseCode.GeneralError) :=
  close_session_downgrades ⟨CameraStatus.SessionOpen, true⟩
    (Except.error (Error.Response StandardResponseCode.GeneralError)) rfl rfl

/-- C6 counterexample: the claim states that a structured decode of a
buffer with a trailing unconsumed byte fails with `Malformed`.
`PtpDeviceInfo::decode` calls no `expect_end`: on a 35-byte all-zero
DeviceInfo payload with one extra trailing byte it succeeds. -/
theorem device_info_trailing_byte_decodes :
    PtpDeviceInfo.decode (List.replicate 35 0 ++ [0xAA]) =
      Except.ok ⟨0, 0, 0, [], 0, [], [], [], [], [], [], [], [], []⟩ := by
  rfl

/-- C6 amended: the structured reply decoders fail when the buffer ends
before all fields are read (underrun), but they do not themselves
enforce exact consumption: appending unconsumed trailing bytes never
changes a successful `PtpDeviceInfo::decode` or `PtpObjectInfo::decode`
result, because the decode functions call no `expect_end` — exact
consumption is checked only by callers that invoke `expect_end` on the
cursor themselves (`get_storage_info`, `get_storageids`,
`get_objecthandles`, `get_numobjects`). -/
theorem structured_decode_no_trailing_check :
    (∀ buf extra v, PtpDeviceInfo.decode buf = Except.ok v →
        PtpDeviceInfo.decode (buf ++ extra) = Except.ok v) ∧
    (∀ buf extra v, PtpObjectInfo.decode buf = Except.ok v →
        PtpObjectInfo.decode (buf ++ extra) = Except.ok v) ∧
    PtpDeviceInfo.decode [] = Except.error eofError ∧
    PtpObjectInfo.decode [] = Except.error eofError := by
  refine ⟨?_, ?_, rfl, rfl⟩
  · intro buf extra v h
    unfold PtpDeviceInfo.decode at h ⊢
    cases hf : deviceInfoFields buf with
    | error e => rw [hf] at h; exact absurd h (by simp)
    | ok wr =>
      obtain ⟨w, rest⟩ := wr
      rw [hf] at h
      rw [ext_deviceInfoFields buf extra w rest hf]
      exact h
  · intro buf extra v h
    unfold PtpObjectInfo.decode at h ⊢
    cases hf : objectInfoFields buf with
    | error e => rw [hf] at h; exact absurd h (by simp)
    | ok wr =>
      obtain ⟨w, rest⟩ := wr
      rw [hf] at h
      rw [ext_objectInfoFields buf extra w rest hf]
      exact h

/-- Witness for C6 at a concrete 35-byte DeviceInfo payload with three
trailing bytes. -/
theorem structured_decode_no_trailing_check_witness :
    PtpDeviceInfo.decode (List.replicate 35 0 ++ [1, 2, 3]) =
      Except.ok ⟨0, 0, 0, [], 0, [], [], [], [], [], [], [], [], []⟩ :=
  structured_decode_no_trailing_check.1 (List.replicate 35 0) [1, 2, 3]
    ⟨0, 0, 0, [], 0, [], [], [], [], [], [], [], [], []⟩ rfl

/-- C10: in `PtpPropInfo::decode`, the `Enumeration` form reads its
element count as a 16-bit little-endian integer — the count is taken
from exactly the two bytes after the `0x02` discriminant — and a
successful parse returns exactly that many values, each decoded with the
property's own data-type code (illustrated concretely for data type
`0x0002`, UINT8); a discriminant other than `0x01` and `0x02` yields the
`None` form and consumes no bytes beyond the discriminant. -/
theorem read_form_enumeration (dt lo hi : Nat) (rest : List Nat) :
    (∀ d rest2, d ≠ 1 → d ≠ 2 →
      read_form dt (d :: rest2) = Except.ok (PtpFormData.NoForm, rest2)) ∧
    (∀ out rem, read_form dt (2 :: lo :: hi :: rest) = Except.ok (out, rem) →
      ∃ arr, out = PtpFormData.Enumeration arr ∧ arr.length = lo + 256 * hi) ∧
    read_form 0x0002 [2, 2, 0, 7, 9] =
      Except.ok (PtpFormData.Enumeration [PtpDataType.UINT8 7, PtpDataType.UINT8 9], []) := by
  refine ⟨?_, ?_, rfl⟩
  · intro d rest2 h1 h2
    rcases d with _ | _ | _ | n
    · rfl
    · exact absurd rfl h1
    · exact absurd rfl h2
    · rfl
  · intro out rem h
    have hred : read_form dt (2 :: lo :: hi :: rest) =
        ByteReader.bind (readN (lo + 256 * (hi + 256 * 0)) (PtpDataType.read_type dt))
          (fun arr => ByteReader.pure (PtpFormData.Enumeration arr)) rest := rfl
    rw [hred] at h
    obtain ⟨arr, r2, hN, h3⟩ := bind_ok h
    simp only [ByteReader.pure, Except.ok.injEq, Prod.mk.injEq] at h3
    refine ⟨arr, h3.1.symm, ?_⟩
    have hlen := readN_length _ _ _ _ hN
    omega

/-- Witness for C10: the default-form arm at discriminant 5, and the
enumeration-length conclusion at the concrete buffer. -/
theorem read_form_enumeration_witness :
    read_form 0 (5 :: [1, 2, 3]) = Except.ok (PtpFormData.NoForm, [1, 2, 3]) ∧
    ∃ arr, PtpFormData.Enumeration [PtpDataType.UINT8 7, PtpDataType.UINT8 9] =
        PtpFormData.Enumeration arr ∧ arr.length = 2 + 256 * 0 := by
  constructor
  · exact (read_form_enumeration 0 0 0 []).1 5 [1, 2, 3] (by decide) (by decide)
  · exact (read_form_enumeration 2 2 0 [7, 9]).2.1
      (PtpFormData.Enumeration [PtpDataType.UINT8 7, PtpDataType.UINT8 9]) [] rfl

/-- C4: during `command()`, the first container read that does not
`belongs_to` the transaction's assigned ID — of any kind, after any
prefix of in-transaction non-Response containers — makes the command
fail with a `Malformed` error, so no payload is returned. -/
theorem command_tid_mismatch (tid : Nat)
    (pre rest : List (PtpContainerInfo × List Nat)) (c : PtpContainerInfo × List Nat)
    (hpre : ∀ x ∈ pre, x.1.tid = tid ∧ x.1.kind ≠ PtpContainerType.Response)
    (hc : c.1.tid ≠ tid) :
    (command tid (pre ++ c :: rest)).1 =
      Except.error (Error.Malformed "事务ID不匹配") := by
  obtain ⟨cinfo, payload⟩ := c
  have hc2 : cinfo.tid ≠ tid := hc
  show command_recv tid [] (pre ++ (cinfo, payload) :: rest) = _
  rw [command_recv_skip tid pre _ hpre []]
  simp [command_recv, PtpContainerInfo.belongs_to, hc2]

/-- Witness for C4: a Response container for transaction 5 read while
transaction 3 is outstanding. -/
theorem command_tid_mismatch_witness :
    (command 3 [(⟨0, PtpContainerType.Response, StandardResponseCode.Ok, 5⟩,
        ([] : List Nat))]).1 =
      Except.error (Error.Malformed "事务ID不匹配") :=
  command_tid_mismatch 3 [] []
    (⟨0, PtpContainerType.Response, StandardResponseCode.Ok, 5⟩, [])
    (by simp) (by decide)

/-- C5: when the `Response` container of a `command()` transaction
carries a code other than `Ok` (0x2001), the command fails with
`Response(code)` and any buffered data-phase payload is discarded (the
error return carries no payload); when the code is `Ok`, the command
returns the accumulated inbound data — the payload of the last Data
container read, possibly empty. -/
theorem command_response_code (tid : Nat)
    (pre rest : List (PtpContainerInfo × List Nat)) (c : PtpContainerInfo × List Nat)
    (hpre : ∀ x ∈ pre, x.1.tid = tid ∧ x.1.kind ≠ PtpContainerType.Response)
    (htid : c.1.tid = tid) (hkind : c.1.kind = PtpContainerType.Response) :
    (c.1.code ≠ StandardResponseCode.Ok →
      (command tid (pre ++ c :: rest)).1 = Except.error (Error.Response c.1.code)) ∧
    (c.1.code = StandardResponseCode.Ok →
      (command tid (pre ++ c :: rest)).1 = Except.ok (data_acc [] pre)) := by
  obtain ⟨cinfo, payload⟩ := c
  have htid2 : cinfo.tid = tid := htid
  have hkind2 : cinfo.kind = PtpContainerType.Response := hkind
  have hstep : (command tid (pre ++ (cinfo, payload) :: rest)).1 =
      command_recv tid (data_acc [] pre) ((cinfo, payload) :: rest) := by
    show command_recv tid [] _ = _
    exact command_recv_skip tid pre _ hpre []
  constructor
  · intro hcode0
    have hcode : cinfo.code ≠ StandardResponseCode.Ok := hcode0
    rw [hstep]
    simp [command_recv, PtpContainerInfo.belongs_to, htid2, hkind2, hcode]
  · intro hcode0
    have hcode : cinfo.code = StandardResponseCode.Ok := hcode0
    rw [hstep]
    simp [command_recv, PtpContainerInfo.belongs_to, htid2, hkind2, hcode]

/-- Witness for C5: a Data container for transaction 7 followed by a
GeneralError response, and the same exchange with an Ok response. -/
theorem command_response_code_witness :
    (command 7 ([(⟨4, PtpContainerType.Data, 0x1009, 7⟩, [9, 9])] ++
        (⟨0, PtpContainerType.Response, StandardResponseCode.GeneralError, 7⟩,
          ([] : List Nat)) :: [])).1 =
      Except.error (Error.Response StandardResponseCode.GeneralError) ∧
    (command 7 ([(⟨4, PtpContainerType.Data, 0x1009, 7⟩, [9, 9])] ++
        (⟨0, PtpContainerType.Response, StandardResponseCode.Ok, 7⟩,
          ([] : List Nat)) :: [])).1 =
      Except.ok (data_acc [] [(⟨4, PtpContainerType.Data, 0x1009, 7⟩, [9, 9])]) := by
  constructor
  · exact (command_response_code 7 [(⟨4, PtpContainerType.Data, 0x1009, 7⟩, [9, 9])] []
      (⟨0, PtpContainerType.Response, StandardResponseCode.GeneralError, 7⟩, [])
      (by simp) rfl rfl).1 (by decide)
  · exact (command_response_code 7 [(⟨4, PtpContainerType.Data, 0x1009, 7⟩, [9, 9])] []
      (⟨0, PtpContainerType.Response, StandardResponseCode.Ok, 7⟩, [])
      (by simp) rfl rfl).2 rfl

/-- C3: `write_txn_phase` sends a first bulk transfer consisting of the
12-byte container header followed by `min(payloadLen, chunkSize - 12)`
payload bytes (chunk size 1 MiB), then sends the remaining payload bytes
unmodified in chunks of at most `chunkSize` bytes; in particular a
payload of exactly `chunkSize` bytes is sent as a first transfer of
exactly `chunkSize` bytes and one trailing transfer of exactly
12 bytes. -/
theorem write_txn_phase_spec (kind : PtpContainerType) (code tid : Nat)
    (payload : List Nat) :
    write_txn_phase kind code tid payload =
      (container_header kind code tid payload.length ++
        payload.take (min payload.length (CHUNK_SIZE - PTP_CONTAINER_INFO_SIZE))) ::
        chunks CHUNK_SIZE
          (payload.drop (min payload.length (CHUNK_SIZE - PTP_CONTAINER_INFO_SIZE))) ∧
    (chunks CHUNK_SIZE
        (payload.drop (min payload.length (CHUNK_SIZE - PTP_CONTAINER_INFO_SIZE)))).flatten =
      payload.drop (min payload.length (CHUNK_SIZE - PTP_CONTAINER_INFO_SIZE)) ∧
    (∀ c ∈ chunks CHUNK_SIZE
        (payload.drop (min payload.length (CHUNK_SIZE - PTP_CONTAINER_INFO_SIZE))),
      c.length ≤ CHUNK_SIZE) ∧
    (payload.length = CHUNK_SIZE →
      write_txn_phase kind code tid payload =
        [container_header kind code tid payload.length ++
          payload.take (CHUNK_SIZE - PTP_CONTAINER_INFO_SIZE),
          payload.drop (CHUNK_SIZE - PTP_CONTAINER_INFO_SIZE)] ∧
        (container_header kind code tid payload.length ++
          payload.take (CHUNK_SIZE - PTP_CONTAINER_INFO_SIZE)).length = CHUNK_SIZE ∧
        (payload.drop (CHUNK_SIZE - PTP_CONTAINER_INFO_SIZE)).length =
          PTP_CONTAINER_INFO_SIZE) := by
  refine ⟨rfl, chunksAux_flatten _ _, ?_, ?_⟩
  · intro c hc
    have hle := chunksAux_mem_length (CHUNK_SIZE - 1)
      (payload.drop (min payload.length (CHUNK_SIZE - PTP_CONTAINER_INFO_SIZE))) c hc
    have hcs : CHUNK_SIZE - 1 + 1 = CHUNK_SIZE := by
      simp only [CHUNK_SIZE]
    omega
  · intro h
    have hmin : min payload.length (CHUNK_SIZE - PTP_CONTAINER_INFO_SIZE) =
        CHUNK_SIZE - PTP_CONTAINER_INFO_SIZE := by
      rw [h]
      simp only [CHUNK_SIZE, PTP_CONTAINER_INFO_SIZE]
      omega
    have hdroplen : (payload.drop (CHUNK_SIZE - PTP_CONTAINER_INFO_SIZE)).length =
        PTP_CONTAINER_INFO_SIZE := by
      rw [List.length_drop, h]
      simp only [CHUNK_SIZE, PTP_CONTAINER_INFO_SIZE]
    refine ⟨?_, ?_, hdroplen⟩
    · have hw : write_txn_phase kind code tid payload =
          (container_header kind code tid payload.length ++
            payload.take (min payload.length (CHUNK_SIZE - PTP_CONTAINER_INFO_SIZE))) ::
            chunks CHUNK_SIZE
              (payload.drop (min payload.length (CHUNK_SIZE - PTP_CONTAINER_INFO_SIZE))) := rfl
      rw [hw, hmin]
      have hne : payload.drop (CHUNK_SIZE - PTP_CONTAINER_INFO_SIZE) ≠ [] := by
        intro hnil
        rw [hnil] at hdroplen
        simp [PTP_CONTAINER_INFO_SIZE] at hdroplen
      have hsmall : (payload.drop (CHUNK_SIZE - PTP_CONTAINER_INFO_SIZE)).length ≤
          (CHUNK_SIZE - 1) + 1 := by
        rw [hdroplen]
        simp only [CHUNK_SIZE, PTP_CONTAINER_INFO_SIZE]
        omega
      rw [show chunks CHUNK_SIZE (payload.drop (CHUNK_SIZE - PTP_CONTAINER_INFO_SIZE)) =
          [payload.drop (CHUNK_SIZE - PTP_CONTAINER_INFO_SIZE)] from
        chunksAux_short hne hsmall]
    · rw [List.length_append, container_header_length, List.length_take, h]
      simp only [CHUNK_SIZE, PTP_CONTAINER_INFO_SIZE]
      omega

/-- Witness for C3: a 1 MiB payload splits into a full-chunk first
transfer and a 12-byte trailing transfer. -/
theorem write_txn_phase_spec_witness :
    write_txn_phase PtpContainerType.Data 0x1009 0 (List.replicate CHUNK_SIZE 0) =
      [container_header PtpContainerType.Data 0x1009 0
          (List.replicate CHUNK_SIZE 0).length ++
        (List.replicate CHUNK_SIZE 0).take (CHUNK_SIZE - PTP_CONTAINER_INFO_SIZE),
        (List.replicate CHUNK_SIZE 0).drop (CHUNK_SIZE - PTP_CONTAINER_INFO_SIZE)] ∧
    (container_header PtpContainerType.Data 0x1009 0
        (List.replicate CHUNK_SIZE 0).length ++
      (List.replicate CHUNK_SIZE 0).take (CHUNK_SIZE - PTP_CONTAINER_INFO_SIZE)).length =
      CHUNK_SIZE ∧
    ((List.replicate CHUNK_SIZE 0).drop (CHUNK_SIZE - PTP_CONTAINER_INFO_SIZE)).length =
      PTP_CONTAINER_INFO_SIZE :=
  (write_txn_phase_spec PtpContainerType.Data 0x1009 0
    (List.replicate CHUNK_SIZE 0)).2.2.2 (by simp)

/-- A single bulk-in read that exactly fills the 8 KiB read buffer while
its container header declares total length 12, i.e. an empty payload:
header bytes for length 12, kind 1 (Command), code 0, tid 0, followed by
8180 bytes of padding. -/
def zeroPayloadFullRead : List Nat :=
  leBytes 4 12 ++ leBytes 2 1 ++ leBytes 2 0 ++ leBytes 4 0 ++ List.replicate 8180 0

/-- C2 counterexample: the claim states that whenever the first bulk
read exactly filled the read buffer, an additional bulk read is issued.
On a full-buffer first read whose header declares a zero-length payload,
`read_txn_phase` takes the `payload_len == 0` early return and issues no
second read: it returns after exactly one bulk read even though the
buffer was filled exactly. -/
theorem read_txn_phase_zero_payload_full_buffer :
    zeroPayloadFullRead.length = READ_BUF_SIZE ∧
    read_txn_phase [zeroPayloadFullRead, []] =
      Except.ok ⟨⟨0, PtpContainerType.Command, 0, 0⟩, [], 1⟩ := by
  constructor
  · simp only [zeroPayloadFullRead, List.length_append, leBytes_length,
      List.length_replicate, READ_BUF_SIZE]
  · rfl

/-- C2 amended: in `read_txn_phase`, when the container header of the
first bulk read parses successfully, exactly one additional bulk read is
issued iff the declared payload length is nonzero and (the declared
payload exceeds the bytes remaining after the header in the first read,
or the first read exactly filled the 8 KiB read buffer); in particular a
header declaring an empty payload never triggers the extra read, even
when the first read filled the buffer, and a header that fails to parse
returns an error after the single read. -/
theorem read_txn_phase_second_read_iff (r r2 : List Nat) (rest : List (List Nat))
    (cinfo : PtpContainerInfo) (prest : List Nat)
    (hparse : PtpContainerInfo.parse (r.take READ_BUF_SIZE) = Except.ok (cinfo, prest)) :
    ∃ res : ReadPhaseResult,
      read_txn_phase (r :: r2 :: rest) = Except.ok res ∧
      res.info = cinfo ∧
      (res.readsIssued = 1 ∨ res.readsIssued = 2) ∧
      (res.readsIssued = 2 ↔
        cinfo.payload_len ≠ 0 ∧
          (((r.take READ_BUF_SIZE).drop PTP_CONTAINER_INFO_SIZE).length <
              cinfo.payload_len ∨
            (r.take READ_BUF_SIZE).length = READ_BUF_SIZE)) := by
  simp only [read_txn_phase]
  rw [hparse]
  dsimp only
  split_ifs with h0 hcond
  · exact ⟨⟨cinfo, [], 1⟩, rfl, rfl, Or.inl rfl, by simp [h0]⟩
  · refine ⟨_, rfl, rfl, Or.inr rfl, ?_⟩
    constructor
    · intro _
      exact ⟨h0, hcond⟩
    · intro _
      rfl
  · refine ⟨_, rfl, rfl, Or.inl rfl, ?_⟩
    constructor
    · intro h12
      have h12' : (1 : Nat) = 2 := h12
      exact absurd h12' (by decide)
    · intro hrhs
      exact absurd hrhs.2 hcond

/-- Witness for C2 at a first read of 12 header bytes declaring a
1-byte payload, with the payload byte arriving in the second read. -/
theorem read_txn_phase_second_read_iff_witness :
    ∃ res : ReadPhaseResult,
      read_txn_phase ([13, 0, 0, 0, 2, 0, 0, 0, 0, 0, 0, 0] :: [0xAB] :: []) =
        Except.ok res ∧
      res.info = ⟨1, PtpContainerType.Data, 0, 0⟩ ∧
      (res.readsIssued = 1 ∨ res.readsIssued = 2) ∧
      (res.readsIssued = 2 ↔
        (⟨1, PtpContainerType.Data, 0, 0⟩ : PtpContainerInfo).payload_len ≠ 0 ∧
          ((((([13, 0, 0, 0, 2, 0, 0, 0, 0, 0, 0, 0] : List Nat)).take
                READ_BUF_SIZE).drop PTP_CONTAINER_INFO_SIZE).length <
              (⟨1, PtpContainerType.Data, 0, 0⟩ : PtpContainerInfo).payload_len ∨
            ((([13, 0, 0, 0, 2, 0, 0, 0, 0, 0, 0, 0] : List Nat)).take
                READ_BUF_SIZE).length = READ_BUF_SIZE)) :=
  read_txn_phase_second_read_iff [13, 0, 0, 0, 2, 0, 0, 0, 0, 0, 0, 0] [0xAB] []
    ⟨1, PtpContainerType.Data, 0, 0⟩ [] rfl

end RCamera
